import Mathlib

/-!
# Tilt-to-servo controller (`monitoramento-movimento.cpp`)

A shallow embedding of the control loop of the firmware: the range mapping
`converter_valor`, the dead zone, the conversion to `uint32_t`, the two safety
limits, the choice of what the display shows, and the angle computation.

Conventions of the embedding.

* A C `float` is a value of an ordered field `α` carrying a floor function, and
  the arithmetic on it is exact.  With `α = ℚ` every definition below can be
  evaluated; with `α = ℝ` the angle computed from a sample (an arctangent) can be
  fed to the same definitions.  Rounding to binary32, infinities and NaN are not
  represented.
* `uint32_t` is a `Nat`; the only operations the loop applies to it are
  comparisons with constants and assignments of constants.
* The cast of a float to `uint32_t` has a value fixed by the language only when
  the float, its fraction discarded, fits 32 bits.  What the cast delivers
  otherwise is not settled by the source; it is a parameter `fora` of every
  definition that reaches the cast, and the statements hold for every `fora`
  unless they name one.
* The loop body is the function `passo`; the endless `while (1)` applies it to
  one fresh sample after another and keeps nothing between two iterations.
-/

namespace Monitoramento

section Controle

variable {α : Type} [LinearOrderedField α]

/-- The constant `LIMIAR_ALERTA_ANGULAR = 45.0f`. -/
def LIMIAR_ALERTA_ANGULAR : α := 45

/-- The constant `PULSO_PARADA_SERVO_US`. -/
def PULSO_PARADA_SERVO_US : Nat := 1500

/-- The constant `PULSO_MINIMO_SERVO_US`. -/
def PULSO_MINIMO_SERVO_US : Nat := 500

/-- The constant `PULSO_MAXIMO_SERVO_US`. -/
def PULSO_MAXIMO_SERVO_US : Nat := 2500

/-- The constant `ZONA_MORTA_GRAUS = 5.0f`. -/
def ZONA_MORTA_GRAUS : α := 5

/-- The function `converter_valor`: linear map of `[deMin, deMax]` onto
`[paraMin, paraMax]`, with the operations in the order of the source. -/
def converter_valor (valor deMin deMax paraMin paraMax : α) : α :=
  (valor - deMin) * (paraMax - paraMin) / (deMax - deMin) + paraMin

/-- The cast `(uint32_t)x` of a float.  When `x` with its fraction discarded fits
`uint32_t`, that is for `-1 < x < 2^32`, the result is that value.  For any other
`x` C++ leaves the result undefined and nothing in the source settles it: there
the result is the 32-bit value `fora x`, whatever the build delivers. -/
def uint32_de_float [FloorRing α] (fora : α → Nat) (x : α) : Nat :=
  if -1 < x ∧ x < 4294967296 then ⌊x⌋₊
  else fora x % 4294967296

/-- The two safety comparisons applied to `largura_pulso_us` in the `else`
branch (`Aplicação de limites de segurança`), in the order of the source. -/
def aplicar_limites (largura_pulso_us : Nat) : Nat :=
  let l1 := if largura_pulso_us < PULSO_MINIMO_SERVO_US then PULSO_MINIMO_SERVO_US
    else largura_pulso_us
  if l1 > PULSO_MAXIMO_SERVO_US then PULSO_MAXIMO_SERVO_US else l1

/-- The value assigned to `largura_pulso_us` by the first statement of the `else`
branch: the mapped angle converted to `uint32_t`, before the limits. -/
def pulso_convertido [FloorRing α] (fora : α → Nat) (inclinacao : α) : Nat :=
  uint32_de_float fora (converter_valor inclinacao (-90) 90
    (PULSO_MAXIMO_SERVO_US : α) (PULSO_MINIMO_SERVO_US : α))

/-- The whole `else` branch of the servo control: map, convert, limit. -/
def ramo_atuando [FloorRing α] (fora : α → Nat) (inclinacao : α) : Nat :=
  aplicar_limites (pulso_convertido fora inclinacao)

/-- Which of the two messages the servo control prints: `Servo: PARADO` or
`Servo: ATUANDO`. -/
inductive EstadoServo where
  | parado
  | atuando
  deriving DecidableEq

/-- The servo control (`Lógica de controle do servo`): the branch taken and the
pulse width handed to `servo_set_pulse_width`. -/
def controle_servo [FloorRing α] (fora : α → Nat) (inclinacao : α) : EstadoServo × Nat :=
  if |inclinacao| < ZONA_MORTA_GRAUS then
    (EstadoServo.parado, PULSO_PARADA_SERVO_US)
  else
    (EstadoServo.atuando, ramo_atuando fora inclinacao)

/-- The text of the normal display mode, `snprintf(.., "%u μs", largura_pulso_us)`.
The buffer of 20 bytes is never filled by a 32-bit number and the suffix. -/
def texto_normal (largura_pulso_us : Nat) : String :=
  Nat.repr largura_pulso_us ++ " μs"

/-- What one iteration draws: the alert screen (`ALERTA!` and the angle; the
screen carries the angle itself, not its `%.1f` text) or the normal screen
(`Controle Servo:` and the pulse-width text). -/
inductive Tela (α : Type) where
  | alerta (inclinacao : α)
  | normal (texto : String)

/-- The display update (`Atualização do display OLED`). -/
def atualizar_display (inclinacao : α) (largura_pulso_us : Nat) : Tela α :=
  if |inclinacao| > LIMIAR_ALERTA_ANGULAR then
    Tela.alerta inclinacao
  else
    Tela.normal (texto_normal largura_pulso_us)

/-- Everything one iteration of the loop hands to the drivers. -/
structure Iteracao (α : Type) where
  /-- the tilt angle of this iteration, in degrees -/
  inclinacao : α
  /-- the branch of the servo control -/
  estado : EstadoServo
  /-- the argument of `servo_set_pulse_width` -/
  largura_pulso_us : Nat
  /-- the screen drawn -/
  tela : Tela α

/-- The body of the loop from the angle on: servo control, then display. -/
def passo [FloorRing α] (fora : α → Nat) (inclinacao : α) : Iteracao α :=
  let c := controle_servo fora inclinacao
  { inclinacao := inclinacao
    estado := c.1
    largura_pulso_us := c.2
    tela := atualizar_display inclinacao c.2 }

end Controle

section Sensor

/-- Modelled from the spec: the sample type `MPU6050::VECT_3D` of `MPU6050.h`,
which is not among the sources; three acceleration components in g. -/
structure VECT_3D where
  x : ℝ
  y : ℝ
  z : ℝ

/-- The C library function `atan2(y, x)` on real numbers: the angle of the point
`(x, y)`, in `(-π, π]`, and `0` at the origin. -/
noncomputable def atan2 (y x : ℝ) : ℝ :=
  Complex.arg ⟨x, y⟩

/-- The tilt angle in degrees computed at the top of the loop body. -/
noncomputable def calcular_inclinacao (aceleracao : VECT_3D) : ℝ :=
  atan2 (-aceleracao.x)
      (Real.sqrt (aceleracao.y * aceleracao.y + aceleracao.z * aceleracao.z))
    * 180 / Real.pi

/-- One full iteration of the loop for the sample the sensor returned. -/
noncomputable def iteracao_do_loop (fora : ℝ → Nat) (aceleracao : VECT_3D) : Iteracao ℝ :=
  passo fora (calcular_inclinacao aceleracao)

end Sensor

section Lemas

variable {α : Type} [LinearOrderedField α]

/-- The limits never give less than 500. -/
theorem aplicar_limites_ge (u : Nat) : 500 ≤ aplicar_limites u := by
  simp only [aplicar_limites, PULSO_MINIMO_SERVO_US, PULSO_MAXIMO_SERVO_US]
  split_ifs <;> omega

/-- The limits never give more than 2500. -/
theorem aplicar_limites_le (u : Nat) : aplicar_limites u ≤ 2500 := by
  simp only [aplicar_limites, PULSO_MINIMO_SERVO_US, PULSO_MAXIMO_SERVO_US]
  split_ifs <;> omega

/-- The limits leave a value of `[500, 2500]` as it is. -/
theorem aplicar_limites_id {u : Nat} (h1 : 500 ≤ u) (h2 : u ≤ 2500) :
    aplicar_limites u = u := by
  simp only [aplicar_limites, PULSO_MINIMO_SERVO_US, PULSO_MAXIMO_SERVO_US]
  split_ifs <;> omega

/-- The limits raise a value below 500 to 500. -/
theorem aplicar_limites_abaixo {u : Nat} (h : u < 500) : aplicar_limites u = 500 := by
  simp only [aplicar_limites, PULSO_MINIMO_SERVO_US, PULSO_MAXIMO_SERVO_US]
  split_ifs <;> omega

/-- The limits bring a value of 2500 or more to 2500. -/
theorem aplicar_limites_acima {u : Nat} (h : 2500 ≤ u) : aplicar_limites u = 2500 := by
  simp only [aplicar_limites, PULSO_MINIMO_SERVO_US, PULSO_MAXIMO_SERVO_US]
  split_ifs <;> omega

/-- The mapping used by the loop, in closed form. -/
theorem mapa_forma_fechada (v : α) :
    converter_valor v (-90) 90 (PULSO_MAXIMO_SERVO_US : α) (PULSO_MINIMO_SERVO_US : α)
      = 1500 - v * 100 / 9 := by
  simp only [converter_valor, PULSO_MAXIMO_SERVO_US, PULSO_MINIMO_SERVO_US]
  push_cast
  ring

/-- The limits are a minimum with 2500 of a maximum with 500. -/
theorem aplicar_limites_min_max (u : Nat) : aplicar_limites u = min 2500 (max 500 u) := by
  simp only [aplicar_limites, PULSO_MINIMO_SERVO_US, PULSO_MAXIMO_SERVO_US]
  split_ifs <;> omega

/-- Where the cast is defined it is the floor. -/
theorem uint32_de_float_floor [FloorRing α] (fora : α → Nat) {x : α} (h0 : -1 < x)
    (h1 : x < 4294967296) : uint32_de_float fora x = ⌊x⌋₊ := by
  simp [uint32_de_float, h0, h1]

/-- Where the cast is defined, the converted pulse is the floor of the mapped
value. -/
theorem pulso_convertido_floor [FloorRing α] (fora : α → Nat) {v : α}
    (h0 : -1 < 1500 - v * 100 / 9) (h1 : 1500 - v * 100 / 9 < 4294967296) :
    pulso_convertido fora v = ⌊1500 - v * 100 / 9⌋₊ := by
  unfold pulso_convertido
  rw [mapa_forma_fechada]
  exact uint32_de_float_floor fora h0 h1

/-- The value of the cast of the mapped angle, from a bracket of the mapped value
between two consecutive integers. -/
theorem pulso_convertido_eq [FloorRing α] (fora : α → Nat) {v : α} {n : Nat}
    (hn : n ≤ 4294967295)
    (h1 : (n : α) ≤ 1500 - v * 100 / 9) (h2 : 1500 - v * 100 / 9 < n + 1) :
    pulso_convertido fora v = n := by
  have h0 : (0 : α) ≤ n := Nat.cast_nonneg n
  have hn2 : (n : α) + 1 ≤ 4294967296 := by
    have : n + 1 ≤ 4294967296 := by omega
    exact_mod_cast this
  rw [pulso_convertido_floor fora (by linarith) (by linarith)]
  exact (Nat.floor_eq_iff (by linarith)).mpr ⟨h1, h2⟩

/-- An upper bound on the mapped value bounds the converted pulse, where the cast
is defined. -/
theorem pulso_convertido_lt [FloorRing α] (fora : α → Nat) {v : α} {n : Nat} (hn : 0 < n)
    (hn2 : n ≤ 4294967296) (h0 : -1 < 1500 - v * 100 / 9) (h : 1500 - v * 100 / 9 < n) :
    pulso_convertido fora v < n := by
  have hn3 : (n : α) ≤ 4294967296 := by exact_mod_cast hn2
  rw [pulso_convertido_floor fora h0 (by linarith)]
  by_cases hx : 0 ≤ 1500 - v * 100 / 9
  · exact (Nat.floor_lt hx).mpr h
  · rw [Nat.floor_of_nonpos (le_of_lt (not_le.mp hx))]
    exact hn

/-- A lower bound on the mapped value bounds the converted pulse, where the cast
is defined. -/
theorem le_pulso_convertido [FloorRing α] (fora : α → Nat) {v : α} {n : Nat}
    (h : (n : α) ≤ 1500 - v * 100 / 9) (h1 : 1500 - v * 100 / 9 < 4294967296) :
    n ≤ pulso_convertido fora v := by
  have h0 : (0 : α) ≤ n := Nat.cast_nonneg n
  rw [pulso_convertido_floor fora (by linarith) h1]
  exact Nat.le_floor h

/-- For an angle of `[-90, 90]` the converted pulse is the floor of the mapped
value and already lies between the two limits. -/
theorem pulso_convertido_no_intervalo [FloorRing α] (fora : α → Nat) {v : α}
    (h1 : -90 ≤ v) (h2 : v ≤ 90) :
    500 ≤ pulso_convertido fora v ∧ pulso_convertido fora v ≤ 2500 ∧
      pulso_convertido fora v = ⌊converter_valor v (-90) 90
        (PULSO_MAXIMO_SERVO_US : α) (PULSO_MINIMO_SERVO_US : α)⌋₊ := by
  have ha : (500 : α) ≤ 1500 - v * 100 / 9 := by linarith
  have hb : 1500 - v * 100 / 9 < 2501 := by linarith
  refine ⟨le_pulso_convertido fora (by exact_mod_cast ha) (by linarith), ?_, ?_⟩
  · have := pulso_convertido_lt fora (v := v) (n := 2501) (by norm_num) (by norm_num)
      (by linarith) (by exact_mod_cast hb)
    omega
  · rw [mapa_forma_fechada]
    exact pulso_convertido_floor fora (by linarith) (by linarith)

/-- Above 90 degrees, where the cast is defined, the `else` branch gives the lower
limit. -/
theorem ramo_atuando_acima_de_90 [FloorRing α] (fora : α → Nat) {v : α} (h : 90 < v)
    (h0 : -1 < 1500 - v * 100 / 9) : ramo_atuando fora v = 500 := by
  unfold ramo_atuando
  apply aplicar_limites_abaixo
  apply pulso_convertido_lt fora (by norm_num) (by norm_num) h0
  push_cast
  linarith

/-- Below -90 degrees, where the cast is defined, the `else` branch gives the upper
limit. -/
theorem ramo_atuando_abaixo_de_menos_90 [FloorRing α] (fora : α → Nat) {v : α}
    (h : v < -90) (h1 : 1500 - v * 100 / 9 < 4294967296) : ramo_atuando fora v = 2500 := by
  unfold ramo_atuando
  apply aplicar_limites_acima
  apply le_pulso_convertido fora _ h1
  push_cast
  linarith

/-- The pulse width of an iteration, by cases on the dead zone. -/
theorem passo_largura [FloorRing α] (fora : α → Nat) (v : α) :
    (passo fora v).largura_pulso_us = if |v| < 5 then 1500 else ramo_atuando fora v := by
  simp only [passo, controle_servo, ZONA_MORTA_GRAUS, PULSO_PARADA_SERVO_US]
  split_ifs <;> rfl

/-- The state of an iteration, by cases on the dead zone. -/
theorem passo_estado [FloorRing α] (fora : α → Nat) (v : α) :
    (passo fora v).estado =
      if |v| < 5 then EstadoServo.parado else EstadoServo.atuando := by
  simp only [passo, controle_servo, ZONA_MORTA_GRAUS]
  split_ifs <;> rfl

/-- The screen of an iteration, by cases on the alert threshold. -/
theorem passo_tela [FloorRing α] (fora : α → Nat) (v : α) :
    (passo fora v).tela = if 45 < |v| then Tela.alerta v
      else Tela.normal (texto_normal (passo fora v).largura_pulso_us) := by
  simp only [passo, atualizar_display, LIMIAR_ALERTA_ANGULAR, gt_iff_lt]

end Lemas

section LemasSensor

/-- With a positive second argument, `atan2` is the arctangent of the quotient. -/
theorem atan2_of_pos (y : ℝ) {x : ℝ} (hx : 0 < x) : atan2 y x = Real.arctan (y / x) := by
  unfold atan2
  have hlt : |Complex.arg ⟨x, y⟩| < Real.pi / 2 :=
    Complex.abs_arg_lt_pi_div_two_iff.mpr (Or.inl hx)
  have h := Real.arctan_tan (neg_lt_of_abs_lt hlt) (lt_of_abs_lt hlt)
  rw [Complex.tan_arg] at h
  exact h.symm

/-- With a nonnegative second argument, `atan2` stays within a quarter turn. -/
theorem abs_atan2_le (y : ℝ) {x : ℝ} (hx : 0 ≤ x) : |atan2 y x| ≤ Real.pi / 2 := by
  unfold atan2
  exact Complex.abs_arg_le_pi_div_two_iff.mpr hx

/-- Partial sum of the arctangent series ending in a negative term: a lower bound. -/
theorem arctan_cota_inferior {x : ℝ} (hx : 0 ≤ x) :
    x - x ^ 3 / 3 + x ^ 5 / 5 - x ^ 7 / 7 + x ^ 9 / 9 - x ^ 11 / 11 ≤ Real.arctan x := by
  have hd : ∀ t : ℝ, HasDerivAt
      (fun t : ℝ => Real.arctan t -
        (t - t ^ 3 / 3 + t ^ 5 / 5 - t ^ 7 / 7 + t ^ 9 / 9 - t ^ 11 / 11))
      (t ^ 12 / (1 + t ^ 2)) t := by
    intro t
    have h1 := Real.hasDerivAt_arctan t
    have h3 := (hasDerivAt_pow 3 t).div_const 3
    have h5 := (hasDerivAt_pow 5 t).div_const 5
    have h7 := (hasDerivAt_pow 7 t).div_const 7
    have h9 := (hasDerivAt_pow 9 t).div_const 9
    have h11 := (hasDerivAt_pow 11 t).div_const 11
    have hp := (((((hasDerivAt_id t).sub h3).add h5).sub h7).add h9).sub h11
    have := h1.sub hp
    convert this using 1
    have hpos : (1 + t ^ 2) ≠ 0 := by positivity
    field_simp
    ring
  have hmono : Monotone (fun t : ℝ => Real.arctan t -
      (t - t ^ 3 / 3 + t ^ 5 / 5 - t ^ 7 / 7 + t ^ 9 / 9 - t ^ 11 / 11)) := by
    apply monotone_of_deriv_nonneg (fun t => (hd t).differentiableAt)
    intro t
    rw [(hd t).deriv]
    positivity
  have h := hmono hx
  simp only [Real.arctan_zero] at h
  norm_num at h
  linarith

/-- Partial sum of the arctangent series ending in a positive term: an upper bound. -/
theorem arctan_cota_superior {x : ℝ} (hx : 0 ≤ x) :
    Real.arctan x ≤ x - x ^ 3 / 3 + x ^ 5 / 5 - x ^ 7 / 7 + x ^ 9 / 9 := by
  have hd : ∀ t : ℝ, HasDerivAt
      (fun t : ℝ => (t - t ^ 3 / 3 + t ^ 5 / 5 - t ^ 7 / 7 + t ^ 9 / 9) - Real.arctan t)
      (t ^ 10 / (1 + t ^ 2)) t := by
    intro t
    have h1 := Real.hasDerivAt_arctan t
    have h3 := (hasDerivAt_pow 3 t).div_const 3
    have h5 := (hasDerivAt_pow 5 t).div_const 5
    have h7 := (hasDerivAt_pow 7 t).div_const 7
    have h9 := (hasDerivAt_pow 9 t).div_const 9
    have hp := ((((hasDerivAt_id t).sub h3).add h5).sub h7).add h9
    have := hp.sub h1
    convert this using 1
    have hpos : (1 + t ^ 2) ≠ 0 := by positivity
    field_simp
    ring
  have hmono : Monotone (fun t : ℝ =>
      (t - t ^ 3 / 3 + t ^ 5 / 5 - t ^ 7 / 7 + t ^ 9 / 9) - Real.arctan t) := by
    apply monotone_of_deriv_nonneg (fun t => (hd t).differentiableAt)
    intro t
    rw [(hd t).deriv]
    positivity
  have h := hmono hx
  simp only [Real.arctan_zero] at h
  norm_num at h
  linarith

/-- The arctangent of one half, to four decimals. -/
theorem arctan_meio : (0.46363 : ℝ) < Real.arctan (1 / 2) ∧ Real.arctan (1 / 2) < 0.46369 := by
  have h1 := arctan_cota_inferior (x := 1 / 2) (by norm_num)
  have h2 := arctan_cota_superior (x := 1 / 2) (by norm_num)
  constructor
  · norm_num at h1 ⊢
    linarith
  · norm_num at h2 ⊢
    linarith

/-- The angle computed from any sample lies within 90 degrees of level. -/
theorem calcular_inclinacao_limites (a : VECT_3D) :
    -90 ≤ calcular_inclinacao a ∧ calcular_inclinacao a ≤ 90 := by
  have h := abs_le.mp (abs_atan2_le (-a.x) (Real.sqrt_nonneg (a.y * a.y + a.z * a.z)))
  have hpi := Real.pi_pos
  unfold calcular_inclinacao
  constructor
  · rw [le_div_iff₀ hpi]
    linarith [h.1]
  · rw [div_le_iff₀ hpi]
    linarith [h.2]

/-- The angle of a sample whose `y` and `z` components vanish. -/
theorem calcular_inclinacao_degenerado (x : ℝ) :
    (0 < x → calcular_inclinacao ⟨x, 0, 0⟩ = -90) ∧
    (x < 0 → calcular_inclinacao ⟨x, 0, 0⟩ = 90) := by
  have hpi : Real.pi ≠ 0 := Real.pi_ne_zero
  constructor
  · intro hx
    have h : atan2 (-x) 0 = -(Real.pi / 2) :=
      Complex.arg_eq_neg_pi_div_two_iff.mpr ⟨rfl, by simpa using hx⟩
    simp only [calcular_inclinacao, mul_zero, add_zero, Real.sqrt_zero, h]
    field_simp
    ring
  · intro hx
    have h : atan2 (-x) 0 = Real.pi / 2 :=
      Complex.arg_eq_pi_div_two_iff.mpr ⟨rfl, by simpa using hx⟩
    simp only [calcular_inclinacao, mul_zero, add_zero, Real.sqrt_zero, h]
    field_simp
    ring

/-- The angle of the sample `(-0.5, 0, 1.0)`. -/
theorem calcular_inclinacao_cenario :
    calcular_inclinacao ⟨-1 / 2, 0, 1⟩ = atan2 (1 / 2) 1 * 180 / Real.pi ∧
    calcular_inclinacao ⟨-1 / 2, 0, 1⟩ = Real.arctan (1 / 2) * 180 / Real.pi ∧
    2656 / 100 < calcular_inclinacao ⟨-1 / 2, 0, 1⟩ ∧
    calcular_inclinacao ⟨-1 / 2, 0, 1⟩ < 2657 / 100 := by
  have h0 : calcular_inclinacao ⟨-1 / 2, 0, 1⟩ = atan2 (1 / 2) 1 * 180 / Real.pi := by
    simp only [calcular_inclinacao]
    norm_num
  have h1 : atan2 (1 / 2) 1 = Real.arctan (1 / 2) := by
    rw [atan2_of_pos _ one_pos, div_one]
  have hpi := Real.pi_pos
  have hl := Real.pi_gt_d6
  have hu := Real.pi_lt_d6
  obtain ⟨ha, hb⟩ := arctan_meio
  refine ⟨h0, by rw [h0, h1], ?_, ?_⟩
  · rw [h0, h1, lt_div_iff₀ hpi]
    norm_num at ha hl hu ⊢
    linarith
  · rw [h0, h1, div_lt_iff₀ hpi]
    norm_num at hb hl hu ⊢
    linarith

/-- What an iteration does with any angle strictly between 26.56 and 26.57. -/
theorem passo_cenario {α : Type} [LinearOrderedField α] [FloorRing α] (fora : α → Nat)
    {v : α} (h1 : 2656 / 100 < v) (h2 : v < 2657 / 100) :
    ¬ |v| < ZONA_MORTA_GRAUS ∧ ¬ |v| > LIMIAR_ALERTA_ANGULAR ∧
    pulso_convertido fora v = 1204 ∧
    (passo fora v).estado = EstadoServo.atuando ∧
    (passo fora v).largura_pulso_us = 1204 ∧
    (passo fora v).tela = Tela.normal "1204 μs" := by
  have hv : |v| = v := abs_of_pos (by linarith)
  have hz : ¬ |v| < 5 := by rw [hv]; linarith
  have ha : ¬ 45 < |v| := by rw [hv]; linarith
  have hp : pulso_convertido fora v = 1204 :=
    pulso_convertido_eq fora (by norm_num) (by push_cast; linarith) (by push_cast; linarith)
  have hl : (passo fora v).largura_pulso_us = 1204 := by
    rw [passo_largura, if_neg hz]
    unfold ramo_atuando
    rw [hp]
    exact aplicar_limites_id (by norm_num) (by norm_num)
  refine ⟨hz, ha, hp, ?_, hl, ?_⟩
  · rw [passo_estado, if_neg hz]
  · rw [passo_tela, if_neg ha, hl]
    rfl

end LemasSensor

section Afirmacoes

variable {α : Type} [LinearOrderedField α]

/-- C1: for every tilt angle, in whichever branch of the servo control, the pulse
width handed to the servo lies between `PULSO_MINIMO_SERVO_US = 500` and
`PULSO_MAXIMO_SERVO_US = 2500`; in the `else` branch this holds for any value the
conversion to `uint32_t` may have produced, since the two limits are applied to it. -/
theorem largura_pulso_dentro_dos_limites [FloorRing α] (fora : α → Nat) (inclinacao : α) :
    (PULSO_MINIMO_SERVO_US ≤ (passo fora inclinacao).largura_pulso_us ∧
      (passo fora inclinacao).largura_pulso_us ≤ PULSO_MAXIMO_SERVO_US) ∧
    (PULSO_MINIMO_SERVO_US = 500 ∧ PULSO_MAXIMO_SERVO_US = 2500) ∧
    ∀ u : Nat, PULSO_MINIMO_SERVO_US ≤ aplicar_limites u ∧
      aplicar_limites u ≤ PULSO_MAXIMO_SERVO_US := by
  refine ⟨?_, ⟨rfl, rfl⟩, fun u => ⟨aplicar_limites_ge u, aplicar_limites_le u⟩⟩
  rw [passo_largura]
  simp only [PULSO_MINIMO_SERVO_US, PULSO_MAXIMO_SERVO_US]
  split_ifs
  · exact ⟨by norm_num, by norm_num⟩
  · exact ⟨aplicar_limites_ge _, aplicar_limites_le _⟩

/-- C2: the dead-zone test is the strict comparison `|angle| < 5` on the angle
alone.  Inside it the iteration is Stopped with the neutral pulse 1500.  Otherwise
it is Actuating and the pulse is the mapped value, converted and then limited: it
lies in `[500, 2500]`, and wherever the conversion is defined it is
`(angle + 90) * (500 - 2500) / 180 + 2500` with its fraction discarded, raised to
500 and lowered to 2500.  Angles 0 and 4.99 are Stopped with pulse 1500; angles
5.00 and 5.01 are Actuating with pulse 1444; 100 and -100 degrees are Actuating
with the limited pulses 500 and 2500. -/
theorem zona_morta_estrita :
    (∀ (β : Type) [LinearOrderedField β] [FloorRing β] (fora : β → Nat) (inclinacao : β),
      (|inclinacao| < 5 →
        (passo fora inclinacao).estado = EstadoServo.parado ∧
        (passo fora inclinacao).largura_pulso_us = PULSO_PARADA_SERVO_US) ∧
      (¬ |inclinacao| < 5 →
        (passo fora inclinacao).estado = EstadoServo.atuando ∧
        (passo fora inclinacao).largura_pulso_us =
          aplicar_limites (uint32_de_float fora (converter_valor inclinacao (-90) 90
            (PULSO_MAXIMO_SERVO_US : β) (PULSO_MINIMO_SERVO_US : β))) ∧
        (500 ≤ (passo fora inclinacao).largura_pulso_us ∧
          (passo fora inclinacao).largura_pulso_us ≤ 2500) ∧
        (-1 < (inclinacao - -90) * (500 - 2500) / (90 - -90) + 2500 →
          (inclinacao - -90) * (500 - 2500) / (90 - -90) + 2500 < 4294967296 →
          (passo fora inclinacao).largura_pulso_us =
            min 2500 (max 500 ⌊(inclinacao - -90) * (500 - 2500) / (90 - -90) + 2500⌋₊)))) ∧
    (∀ fora : ℚ → Nat,
      ((passo fora 0).estado = EstadoServo.parado ∧
        (passo fora 0).largura_pulso_us = 1500) ∧
      ((passo fora (499 / 100)).estado = EstadoServo.parado ∧
        (passo fora (499 / 100)).largura_pulso_us = 1500) ∧
      ((passo fora 5).estado = EstadoServo.atuando ∧
        (passo fora 5).largura_pulso_us = 1444) ∧
      ((passo fora (501 / 100)).estado = EstadoServo.atuando ∧
        (passo fora (501 / 100)).largura_pulso_us = 1444) ∧
      ((passo fora 100).estado = EstadoServo.atuando ∧
        (passo fora 100).largura_pulso_us = 500) ∧
      ((passo fora (-100)).estado = EstadoServo.atuando ∧
        (passo fora (-100)).largura_pulso_us = 2500)) := by
  constructor
  · intro β _ _ fora v
    constructor
    · intro h
      rw [passo_estado, passo_largura, if_pos h, if_pos h]
      exact ⟨rfl, rfl⟩
    · intro h
      rw [passo_estado, passo_largura, if_neg h, if_neg h]
      refine ⟨rfl, rfl, ⟨aplicar_limites_ge _, aplicar_limites_le _⟩, ?_⟩
      intro h0 h1
      have he : (v - -90) * (500 - 2500) / (90 - -90) + 2500 = 1500 - v * 100 / 9 := by
        ring
      rw [he] at h0 h1 ⊢
      unfold ramo_atuando
      rw [pulso_convertido_floor fora h0 h1, aplicar_limites_min_max]
  · intro fora
    refine ⟨⟨?_, ?_⟩, ⟨?_, ?_⟩, ⟨?_, ?_⟩, ⟨?_, ?_⟩, ⟨?_, ?_⟩, ⟨?_, ?_⟩⟩
    · rw [passo_estado]; norm_num
    · rw [passo_largura]; norm_num
    · rw [passo_estado]; norm_num [abs_lt]
    · rw [passo_largura]; norm_num [abs_lt]
    · rw [passo_estado]; norm_num
    · rw [passo_largura, if_neg (by norm_num)]
      unfold ramo_atuando
      rw [pulso_convertido_eq fora (n := 1444) (by norm_num) (by norm_num) (by norm_num)]
      exact aplicar_limites_id (by norm_num) (by norm_num)
    · rw [passo_estado]; norm_num [abs_lt]
    · rw [passo_largura, if_neg (by norm_num [abs_lt])]
      unfold ramo_atuando
      rw [pulso_convertido_eq fora (n := 1444) (by norm_num) (by norm_num) (by norm_num)]
      exact aplicar_limites_id (by norm_num) (by norm_num)
    · rw [passo_estado]; norm_num
    · rw [passo_largura, if_neg (by norm_num)]
      exact ramo_atuando_acima_de_90 fora (by norm_num) (by norm_num)
    · rw [passo_estado]; norm_num
    · rw [passo_largura, if_neg (by norm_num)]
      exact ramo_atuando_abaixo_de_menos_90 fora (by norm_num) (by norm_num)

/-- C3: `converter_valor v a b c d` is `(v - a) * (d - c) / (b - a) + c`, and the
mapping of the loop, `converter_valor angle (-90) 90 2500 500`, is strictly
decreasing in the angle (on `[-90, 90]` and beyond), with value 2500 at -90, 1500
at 0 and 500 at 90. -/
theorem mapa_decrescente :
    (∀ v a b c d : α, converter_valor v a b c d = (v - a) * (d - c) / (b - a) + c) ∧
    StrictAntiOn (fun v : α => converter_valor v (-90) 90 2500 500) (Set.Icc (-90) 90) ∧
    StrictAnti (fun v : α => converter_valor v (-90) 90 2500 500) ∧
    converter_valor (-90 : α) (-90) 90 2500 500 = (PULSO_MAXIMO_SERVO_US : α) ∧
    converter_valor (0 : α) (-90) 90 2500 500 = (PULSO_PARADA_SERVO_US : α) ∧
    converter_valor (90 : α) (-90) 90 2500 500 = (PULSO_MINIMO_SERVO_US : α) := by
  have hanti : StrictAnti (fun v : α => converter_valor v (-90) 90 2500 500) := by
    intro a b hab
    simp only [converter_valor]
    have h1 : (b - -90) * (500 - 2500 : α) < (a - -90) * (500 - 2500) :=
      mul_lt_mul_of_neg_right (by linarith) (by norm_num)
    have h2 : (b - -90) * (500 - 2500 : α) / (90 - -90) < (a - -90) * (500 - 2500) / (90 - -90) :=
      div_lt_div_of_pos_right h1 (by norm_num)
    linarith
  refine ⟨fun _ _ _ _ _ => rfl, hanti.strictAntiOn _, hanti, ?_, ?_, ?_⟩ <;>
    norm_num [converter_valor, PULSO_MAXIMO_SERVO_US, PULSO_PARADA_SERVO_US,
      PULSO_MINIMO_SERVO_US]

/-- C5: for an angle of `[-90, 90]` the two limits change nothing: the pulse of the
`else` branch is the value the conversion produced, which is the mapped value
`converter_valor angle (-90) 90 2500 500` with its fraction discarded; the mapped
value itself already lies in `[500, 2500]`. -/
theorem limites_sem_efeito [FloorRing α] (fora : α → Nat) (inclinacao : α)
    (h1 : -90 ≤ inclinacao) (h2 : inclinacao ≤ 90) :
    ramo_atuando fora inclinacao = pulso_convertido fora inclinacao ∧
    aplicar_limites (pulso_convertido fora inclinacao) = pulso_convertido fora inclinacao ∧
    pulso_convertido fora inclinacao = ⌊converter_valor inclinacao (-90) 90 2500 500⌋₊ ∧
    (PULSO_MINIMO_SERVO_US : α) ≤ converter_valor inclinacao (-90) 90 2500 500 ∧
    converter_valor inclinacao (-90) 90 2500 500 ≤ (PULSO_MAXIMO_SERVO_US : α) := by
  obtain ⟨ha, hb, hc⟩ := pulso_convertido_no_intervalo fora h1 h2
  have hm := mapa_forma_fechada inclinacao
  simp only [PULSO_MAXIMO_SERVO_US, PULSO_MINIMO_SERVO_US] at hm hc ⊢
  push_cast at hm hc ⊢
  refine ⟨aplicar_limites_id ha hb, aplicar_limites_id ha hb, hc, ?_, ?_⟩
  · rw [hm]; linarith
  · rw [hm]; linarith

/-- Instance of C5 at 30 degrees, where the pulse is 1166. -/
theorem limites_sem_efeito_em_30 :
    ((-90 : ℚ) ≤ 30 ∧ (30 : ℚ) ≤ 90) ∧
    ramo_atuando (fun _ => 0) (30 : ℚ) = pulso_convertido (fun _ => 0) (30 : ℚ) ∧
    aplicar_limites (pulso_convertido (fun _ => 0) (30 : ℚ)) =
      pulso_convertido (fun _ => 0) (30 : ℚ) ∧
    pulso_convertido (fun _ => 0) (30 : ℚ) = ⌊converter_valor (30 : ℚ) (-90) 90 2500 500⌋₊ ∧
    (PULSO_MINIMO_SERVO_US : ℚ) ≤ converter_valor (30 : ℚ) (-90) 90 2500 500 ∧
    converter_valor (30 : ℚ) (-90) 90 2500 500 ≤ (PULSO_MAXIMO_SERVO_US : ℚ) :=
  ⟨⟨by norm_num, by norm_num⟩,
    limites_sem_efeito (fun _ => 0) (30 : ℚ) (by norm_num) (by norm_num)⟩

/-- C7: the display mode is chosen by the strict comparison `|angle| > 45`, whatever
the pulse width and the servo state: the alert screen exactly when `|angle| > 45`,
the normal screen otherwise.  46 degrees gives the alert screen, 44 and exactly 45
degrees the normal screen. -/
theorem modo_de_exibicao :
    (∀ (β : Type) [LinearOrderedField β] [FloorRing β] (fora : β → Nat) (inclinacao : β),
      ((passo fora inclinacao).tela = Tela.alerta inclinacao ↔
        |inclinacao| > LIMIAR_ALERTA_ANGULAR) ∧
      ((passo fora inclinacao).tela =
          Tela.normal (texto_normal (passo fora inclinacao).largura_pulso_us) ↔
        ¬ |inclinacao| > LIMIAR_ALERTA_ANGULAR) ∧
      ∀ p : Nat,
        (atualizar_display inclinacao p = Tela.alerta inclinacao ↔ |inclinacao| > 45) ∧
        (atualizar_display inclinacao p = Tela.normal (texto_normal p) ↔
          ¬ |inclinacao| > 45)) ∧
    (∀ fora : ℚ → Nat,
      (passo fora 46).tela = Tela.alerta 46 ∧
      (passo fora 44).tela = Tela.normal (texto_normal (passo fora 44).largura_pulso_us) ∧
      (passo fora 45).tela = Tela.normal (texto_normal (passo fora 45).largura_pulso_us)) := by
  constructor
  · intro β _ _ fora v
    refine ⟨?_, ?_, fun p => ⟨?_, ?_⟩⟩
    · rw [passo_tela]
      simp only [LIMIAR_ALERTA_ANGULAR, gt_iff_lt]
      split_ifs with h <;> simp [h]
    · rw [passo_tela]
      simp only [LIMIAR_ALERTA_ANGULAR, gt_iff_lt]
      split_ifs with h <;> simp [h]
    · simp only [atualizar_display, LIMIAR_ALERTA_ANGULAR, gt_iff_lt]
      split_ifs with h <;> simp [h]
    · simp only [atualizar_display, LIMIAR_ALERTA_ANGULAR, gt_iff_lt]
      split_ifs with h <;> simp [h]
  · intro fora
    refine ⟨?_, ?_, ?_⟩
    · rw [passo_tela]; norm_num
    · rw [passo_tela]; norm_num
    · rw [passo_tela]; norm_num

/-- C4, as the code behaves: for the sample `(-0.5, 0, 1.0)` the angle is
`atan2(0.5, 1.0) * 180 / π`, between 26.56 and 26.57 degrees, outside the dead zone
and below the alert threshold; the mapped value lies strictly between 1204 and
1205, the conversion discards its fraction, so the pulse width of the iteration is
1204, the limits leave it unchanged, and the normal screen shows `1204 μs`. -/
theorem cenario_ponta_a_ponta (fora : ℝ → Nat) :
    calcular_inclinacao ⟨-1 / 2, 0, 1⟩ = atan2 (1 / 2) 1 * 180 / Real.pi ∧
    (2656 / 100 < calcular_inclinacao ⟨-1 / 2, 0, 1⟩ ∧
      calcular_inclinacao ⟨-1 / 2, 0, 1⟩ < 2657 / 100) ∧
    ¬ |calcular_inclinacao ⟨-1 / 2, 0, 1⟩| < ZONA_MORTA_GRAUS ∧
    ¬ |calcular_inclinacao ⟨-1 / 2, 0, 1⟩| > LIMIAR_ALERTA_ANGULAR ∧
    (1204 < converter_valor (calcular_inclinacao ⟨-1 / 2, 0, 1⟩) (-90) 90 2500 500 ∧
      converter_valor (calcular_inclinacao ⟨-1 / 2, 0, 1⟩) (-90) 90 2500 500 < 1205) ∧
    (iteracao_do_loop fora ⟨-1 / 2, 0, 1⟩).estado = EstadoServo.atuando ∧
    (iteracao_do_loop fora ⟨-1 / 2, 0, 1⟩).largura_pulso_us = 1204 ∧
    aplicar_limites (pulso_convertido fora (calcular_inclinacao ⟨-1 / 2, 0, 1⟩)) =
      pulso_convertido fora (calcular_inclinacao ⟨-1 / 2, 0, 1⟩) ∧
    (iteracao_do_loop fora ⟨-1 / 2, 0, 1⟩).tela = Tela.normal "1204 μs" := by
  obtain ⟨h0, -, h1, h2⟩ := calcular_inclinacao_cenario
  obtain ⟨hz, ha, hp, he, hl, ht⟩ := passo_cenario fora h1 h2
  have hm := mapa_forma_fechada (calcular_inclinacao ⟨-1 / 2, 0, 1⟩)
  simp only [PULSO_MAXIMO_SERVO_US, PULSO_MINIMO_SERVO_US] at hm
  push_cast at hm
  refine ⟨h0, ⟨h1, h2⟩, hz, ha, ⟨?_, ?_⟩, he, hl, ?_, ht⟩
  · rw [hm]; linarith
  · rw [hm]; linarith
  · rw [hp]
    exact aplicar_limites_id (by norm_num) (by norm_num)

/-- C4 as stated fails: for the sample `(-0.5, 0, 1.0)` the pulse width of the
iteration is not 1205 and the screen is not the normal screen with `1205 μs`,
whatever the conversion does outside its domain. -/
theorem cenario_nao_e_1205 :
    (∀ fora : ℝ → Nat, (iteracao_do_loop fora ⟨-1 / 2, 0, 1⟩).largura_pulso_us ≠ 1205) ∧
    (∀ fora : ℝ → Nat,
      (iteracao_do_loop fora ⟨-1 / 2, 0, 1⟩).tela ≠ Tela.normal "1205 μs") := by
  obtain ⟨-, -, h1, h2⟩ := calcular_inclinacao_cenario
  constructor
  · intro fora
    obtain ⟨-, -, -, -, hl, -⟩ := passo_cenario fora h1 h2
    unfold iteracao_do_loop
    rw [hl]
    norm_num
  · intro fora
    obtain ⟨-, -, -, -, -, ht⟩ := passo_cenario fora h1 h2
    unfold iteracao_do_loop
    rw [ht]
    intro h
    have h2 : ("1204 μs" : String) = "1205 μs" := Tela.normal.inj h
    exact absurd h2 (by decide)

/-- C8: for a sample with `y = z = 0` the angle is exactly -90 degrees when `x > 0`
and exactly +90 degrees when `x < 0` (for instance at `x = 1` and `x = -1`); the
iteration goes on with this angle as with any other, in the `else` branch, with
pulse 2500 and 500. -/
theorem caso_degenerado :
    (∀ (fora : ℝ → Nat) (x : ℝ), 0 < x → calcular_inclinacao ⟨x, 0, 0⟩ = -90 ∧
      (iteracao_do_loop fora ⟨x, 0, 0⟩).estado = EstadoServo.atuando ∧
      (iteracao_do_loop fora ⟨x, 0, 0⟩).largura_pulso_us = 2500) ∧
    (∀ (fora : ℝ → Nat) (x : ℝ), x < 0 → calcular_inclinacao ⟨x, 0, 0⟩ = 90 ∧
      (iteracao_do_loop fora ⟨x, 0, 0⟩).estado = EstadoServo.atuando ∧
      (iteracao_do_loop fora ⟨x, 0, 0⟩).largura_pulso_us = 500) ∧
    calcular_inclinacao ⟨1, 0, 0⟩ = -90 ∧
    calcular_inclinacao ⟨-1, 0, 0⟩ = 90 := by
  refine ⟨?_, ?_, (calcular_inclinacao_degenerado 1).1 one_pos,
    (calcular_inclinacao_degenerado (-1)).2 (by norm_num)⟩
  · intro fora x hx
    have h := (calcular_inclinacao_degenerado x).1 hx
    refine ⟨h, ?_, ?_⟩
    · rw [iteracao_do_loop, h, passo_estado, if_neg (by norm_num)]
    · rw [iteracao_do_loop, h, passo_largura, if_neg (by norm_num)]
      unfold ramo_atuando
      rw [pulso_convertido_eq fora (n := 2500) (by norm_num) (by norm_num) (by norm_num)]
      exact aplicar_limites_id (by norm_num) (by norm_num)
  · intro fora x hx
    have h := (calcular_inclinacao_degenerado x).2 hx
    refine ⟨h, ?_, ?_⟩
    · rw [iteracao_do_loop, h, passo_estado, if_neg (by norm_num)]
    · rw [iteracao_do_loop, h, passo_largura, if_neg (by norm_num)]
      unfold ramo_atuando
      rw [pulso_convertido_eq fora (n := 500) (by norm_num) (by norm_num) (by norm_num)]
      exact aplicar_limites_id (by norm_num) (by norm_num)

/-- C9: for every sample the second argument of `atan2` is nonnegative and the
computed angle lies in `[-90, 90]` degrees; consequently, in the `else` branch, the
two limits leave the converted pulse of such an angle unchanged. -/
theorem inclinacao_do_sensor_no_intervalo (fora : ℝ → Nat) (a : VECT_3D) :
    0 ≤ Real.sqrt (a.y * a.y + a.z * a.z) ∧
    (-90 ≤ calcular_inclinacao a ∧ calcular_inclinacao a ≤ 90) ∧
    aplicar_limites (pulso_convertido fora (calcular_inclinacao a)) =
      pulso_convertido fora (calcular_inclinacao a) ∧
    ((iteracao_do_loop fora a).estado = EstadoServo.atuando →
      (iteracao_do_loop fora a).largura_pulso_us =
        pulso_convertido fora (calcular_inclinacao a)) := by
  obtain ⟨h1, h2⟩ := calcular_inclinacao_limites a
  obtain ⟨ha, hb, -⟩ := pulso_convertido_no_intervalo fora h1 h2
  refine ⟨Real.sqrt_nonneg _, ⟨h1, h2⟩, aplicar_limites_id ha hb, ?_⟩
  intro he
  unfold iteracao_do_loop at he ⊢
  rw [passo_estado] at he
  rw [passo_largura]
  split_ifs at he ⊢ with h
  unfold ramo_atuando
  exact aplicar_limites_id ha hb

end Afirmacoes

end Monitoramento
